import Mathlib

set_option maxHeartbeats 1000000

/-!
Shallow embedding of the GDM-Prediction-System inference pipeline
(`gestation_backend/gdm_backend.py`, the extended variant, and
`gestation_backend/fastapi_backend_modified.py`, the legacy/simple variant).

Numeric values are modelled as rationals (`ℚ`).  A pandas single-row
DataFrame / Python dict is modelled as an association list from column
names to cell values (`Rec`).  A cell value (`Val`) is a number, a
categorical label produced by `pd.cut` (with `Val.nan` for values that
fall outside every bin, mirroring pandas' NaN), or `Val.logv q`, an
opaque marker standing for the transcendental `np.log1p(q) = ln (1+q)`
(no claim inspects the numeric content of the log columns).
Python exceptions are modelled with `Except`.
-/

/-- A cell value of the modelled DataFrame. -/
inductive Val where
  | num : ℚ → Val
  | cat : String → Val
  | nan : Val
  | logv : ℚ → Val
deriving DecidableEq, Repr

/-- A single data row: column name to cell value, first binding wins. -/
abbrev Rec := List (String × Val)

/-- Column lookup (models `df[col]` / `col in df.columns`). -/
def recFind (r : Rec) (k : String) : Option Val :=
  match r with
  | [] => none
  | (k', v) :: rest => if k' = k then some v else recFind rest k

/-- Models `col in df.columns`. -/
def recHas (r : Rec) (k : String) : Bool := (recFind r k).isSome

/-- Column assignment (models `df[col] = v`): overwrite in place, else append. -/
def recSet (r : Rec) (k : String) (v : Val) : Rec :=
  match r with
  | [] => [(k, v)]
  | (k', v') :: rest => if k' = k then (k, v) :: rest else (k', v') :: recSet rest k v

/-- Numeric lookup: the value of column `k` when present and numeric. -/
def recNum (r : Rec) (k : String) : Option ℚ :=
  match recFind r k with
  | some (Val.num q) => some q
  | _ => none

/-- Models Python's `d.get(k, default)` used numerically. -/
def recGetD (r : Rec) (k : String) (d : ℚ) : ℚ := (recNum r k).getD d

/-- `pd.cut(BMI, bins=[0, 18.5, 25, 30, 50], labels=[...])`
(gdm_backend.py lines 85-89).  pandas' default is right-closed,
left-open intervals; values outside `(0, 50]` become NaN. -/
def bmiCategory (b : ℚ) : Val :=
  if b ≤ 0 then Val.nan
  else if b ≤ 18.5 then Val.cat "Underweight"
  else if b ≤ 25 then Val.cat "Normal"
  else if b ≤ 30 then Val.cat "Overweight"
  else if b ≤ 50 then Val.cat "Obese"
  else Val.nan

/-- `np.where(BMI < 18.5, 1, np.where(BMI < 25, 0, np.where(BMI < 30, 2, 4)))`
(gdm_backend.py lines 92-96). -/
def bmiRiskScore (b : ℚ) : ℚ :=
  if b < 18.5 then 1 else if b < 25 then 0 else if b < 30 then 2 else 4

/-- `pd.cut(OGTT, bins=[0, 140, 200, 1000], labels=[...])`
(gdm_backend.py lines 101-105), right-closed bins as above. -/
def ogttCategory (g : ℚ) : Val :=
  if g ≤ 0 then Val.nan
  else if g ≤ 140 then Val.cat "Normal"
  else if g ≤ 200 then Val.cat "Impaired"
  else if g ≤ 1000 then Val.cat "Diabetic"
  else Val.nan

/-- `np.where(OGTT < 140, 0, np.where(OGTT < 200, 3, 5))`
(gdm_backend.py lines 108-111). -/
def ogttRiskScore (g : ℚ) : ℚ :=
  if g < 140 then 0 else if g < 200 then 3 else 5

/-- BMI feature block (gdm_backend.py lines 83-96): executed only when
the BMI column is present. -/
def bmiBlock (df : Rec) : Rec :=
  match recNum df "BMI" with
  | some b =>
      recSet (recSet df "BMI_Category" (bmiCategory b))
        "BMI_Risk_Score" (Val.num (bmiRiskScore b))
  | none => df

/-- OGTT feature block (gdm_backend.py lines 98-111). -/
def ogttBlock (df : Rec) : Rec :=
  match recNum df "OGTT" with
  | some g =>
      recSet (recSet df "OGTT_Category" (ogttCategory g))
        "OGTT_Risk_Score" (Val.num (ogttRiskScore g))
  | none => df

/-- Combined risk block (gdm_backend.py lines 113-115). -/
def combinedBlock (df : Rec) : Rec :=
  match recNum df "BMI_Risk_Score", recNum df "OGTT_Risk_Score" with
  | some br, some gr => recSet df "BMI_OGTT_Risk" (Val.num (br + gr))
  | _, _ => df

/-- Age-BMI interaction block (gdm_backend.py lines 117-119). -/
def interactionBlock (df : Rec) : Rec :=
  match recNum df "Age", recNum df "BMI" with
  | some a, some b => recSet df "Age_BMI_Interaction" (Val.num (a * b / 100))
  | _, _ => df

/-- Blood-pressure feature block (gdm_backend.py lines 121-130). -/
def bpBlock (df : Rec) : Rec :=
  match recNum df "Sys BP", recNum df "Dia BP" with
  | some s, some dbp =>
      recSet (recSet (recSet (recSet df
        "BP_Ratio" (Val.num (s / dbp)))
        "Pulse_Pressure" (Val.num (s - dbp)))
        "Mean_Arterial_Pressure" (Val.num ((s + 2 * dbp) / 3)))
        "Hypertensive" (Val.num (if 140 ≤ s ∨ 90 ≤ dbp then 1 else 0))
  | _, _ => df

/-- The `risk_score` accumulation (gdm_backend.py lines 132-147), once
Age and No of Pregnancy have been read successfully.  Guarded terms
contribute 0 when their source column is absent. -/
def riskTerms (df : Rec) (age npreg : ℚ) : ℚ :=
  (match recNum df "OGTT_Risk_Score" with | some v => v * 2 | none => 0) +
  (match recNum df "BMI_Risk_Score" with | some v => v * 1.5 | none => 0) +
  (if 35 < age then 1 else 0) * 2 +
  recGetD df "Family History" 0 * 2 +
  recGetD df "PCOS" 0 * 2.5 +
  (if 2 < npreg then 1 else 0) * 1 +
  (match recNum df "Hypertensive" with | some v => v * 1.5 | none => 0)

/-- High-risk BMI indicator block (gdm_backend.py lines 152-153). -/
def highRiskBmiBlock (df : Rec) : Rec :=
  match recNum df "BMI" with
  | some b => recSet df "High_Risk_BMI" (Val.num (if 30 ≤ b then 1 else 0))
  | none => df

/-- High-risk OGTT indicator block (gdm_backend.py lines 154-155). -/
def highRiskOgttBlock (df : Rec) : Rec :=
  match recNum df "OGTT" with
  | some g => recSet df "High_Risk_OGTT" (Val.num (if 140 ≤ g then 1 else 0))
  | none => df

/-- Log-transform block (gdm_backend.py lines 159-162), BMI then OGTT. -/
def logBlock (df : Rec) : Rec :=
  let d1 :=
    match recNum df "BMI" with
    | some b => recSet df "BMI_log" (Val.logv b)
    | none => df
  match recNum d1 "OGTT" with
  | some g => recSet d1 "OGTT_log" (Val.logv g)
  | none => d1

/-- Embedding of `advanced_feature_engineering` (gdm_backend.py lines 78-164)
restricted to a single row, as the composition of its source blocks.
Column presence (`'BMI' in df.columns`) is modelled as the presence of a
numeric value.  `df['Age']` and `df['No of Pregnancy']` are accessed
without a presence guard in the source (lines 141, 144, 157), so their
absence raises a `KeyError`, modelled as `Except.error`. -/
def advanced_feature_engineering (df : Rec) : Except String Rec :=
  let d5 := bpBlock (interactionBlock (combinedBlock (ogttBlock (bmiBlock df))))
  match recNum d5 "Age" with
  | none => Except.error "KeyError: Age"
  | some age =>
    match recNum d5 "No of Pregnancy" with
    | none => Except.error "KeyError: No of Pregnancy"
    | some npreg =>
      let d6 := recSet d5 "Comprehensive_Risk_Score" (Val.num (riskTerms d5 age npreg))
      let d9 := recSet (highRiskOgttBlock (highRiskBmiBlock d6))
        "Advanced_Age" (Val.num (if 35 ≤ age then 1 else 0))
      Except.ok (logBlock d9)

/-- The caller's guard around feature engineering
(gdm_backend.py lines 187-192): on any error, fall back to the
unmodified input record. -/
def enhanceOrFallback (r : Rec) : Rec :=
  (advanced_feature_engineering r).toOption.getD r

/-- A column of the feature-engineered record, `none` when the stage
raised or the column is absent. -/
def afeColumn (r : Rec) (k : String) : Option Val :=
  (advanced_feature_engineering r).toOption.bind (fun d => recFind d k)

/-! ### Preprocessor: missing-feature defaults and column alignment
(gdm_backend.py lines 208-226) -/

/-- `isPrefixList pat l` tests whether `pat` is a prefix of `l`. -/
def isPrefixList : List Char → List Char → Bool
  | [], _ => true
  | _ :: _, [] => false
  | p :: ps, c :: cs => p == c && isPrefixList ps cs

/-- Substring search over character lists. -/
def containsList (pat : List Char) : List Char → Bool
  | [] => isPrefixList pat []
  | c :: rest => isPrefixList pat (c :: rest) || containsList pat rest

/-- Python's `"pat" in s` substring test. -/
def strContains (s pat : String) : Bool := containsList pat.toList s.toList

/-- The default filled in for a feature column that is absent from the
record (gdm_backend.py lines 215-224): 0 for columns whose name contains
"Risk" or "Score", the named clinical defaults for Age/BMI/OGTT/
Hemoglobin/HDL, 0 otherwise. -/
def defaultFill (col : String) : ℚ :=
  if strContains col "Risk" || strContains col "Score" then 0
  else if col = "Age" then 28
  else if col = "BMI" then 23
  else if col = "OGTT" then 120
  else if col = "Hemoglobin" then 12
  else if col = "HDL" then 50
  else 0

/-- The fill loop (gdm_backend.py lines 212-224): each feature column
absent from the evolving record is assigned its default. -/
def fillMissing (feature_columns : List String) (r : Rec) : Rec :=
  feature_columns.foldl
    (fun acc col => if recHas acc col then acc else recSet acc col (Val.num (defaultFill col))) r

/-- `final_data = processed_data[feature_columns]` (gdm_backend.py line 226):
restrict and reorder to exactly the feature columns. -/
def selectColumns (feature_columns : List String) (r : Rec) : Rec :=
  feature_columns.map (fun col => (col, (recFind r col).getD Val.nan))

/-! ### Ensemble predictor (both files; gdm_backend.py lines 241-271,
fastapi_backend_modified.py lines 112-139).
A trained model object is opaque: its `predict` either returns a
prediction vector or fails (`none`, a raised exception), and it may or
may not expose a usable probability output. -/

/-- An opaque trained model object. -/
structure MLModel where
  predict : List (List ℚ) → Option (List ℚ)
  predictProba : Option (List (List ℚ) → List (List ℚ))

/-- The loaded model mapping, in iteration order. -/
abbrev ModelSet := List (String × MLModel)

/-- Failures of the ensemble prediction stage. -/
inductive PredErr where
  | NoBaseModels
  | NoEnsembleModel
  | EnsembleFailed
deriving DecidableEq, Repr

/-- `np.zeros(len(df))`. -/
def zeros (n : ℕ) : List ℚ := List.replicate n 0

/-- `np.array(individual_predictions).T`. -/
def transposeM (m : List (List ℚ)) : List (List ℚ) :=
  match m with
  | [] => []
  | r0 :: _ => (List.range r0.length).map (fun j => m.map (fun row => row.getD j 0))

/-- The base-model loop (gdm_backend.py lines 242-251): every model other
than "Ensemble" predicts; a failing model contributes an all-zero vector
of the input's row count. -/
def basePredictions (models : ModelSet) (X : List (List ℚ)) : List (List ℚ) :=
  (models.filter (fun nm => nm.1 != "Ensemble")).map
    (fun nm => (nm.2.predict X).getD (zeros X.length))

/-- `models['Ensemble']` viewed as a lookup. -/
def lookupModel (models : ModelSet) (k : String) : Option MLModel :=
  match models with
  | [] => none
  | (k', m) :: rest => if k' = k then some m else lookupModel rest k

/-- The model-consuming part of `predict_with_ensemble`
(gdm_backend.py lines 241-271): stack base predictions, feed them to the
"Ensemble" meta-model, and derive probabilities — falling back to
`[1 - pred, pred]` rows when no probability output is available. -/
def runEnsemble (models : ModelSet) (X : List (List ℚ)) :
    Except PredErr (List ℚ × List (List ℚ)) :=
  let ip := basePredictions models X
  if ip = [] then Except.error PredErr.NoBaseModels
  else
    match lookupModel models "Ensemble" with
    | none => Except.error PredErr.NoEnsembleModel
    | some em =>
      match em.predict (transposeM ip) with
      | none => Except.error PredErr.EnsembleFailed
      | some finalPreds =>
        let probs :=
          match em.predictProba with
          | some f => f (transposeM ip)
          | none => finalPreds.map (fun p => [1 - p, p])
        Except.ok (finalPreds, probs)

/-! ### Risk interpreter, extended variant (gdm_backend.py `predict_gdm`,
lines 402-521) -/

/-- The preprocessing state fields the interpreter consumes. -/
structure PreprocessingState where
  optimal_threshold : Option ℚ
  feature_columns : List String
deriving Repr, DecidableEq

/-- Python's `int()` truncation toward zero. -/
def pyInt (q : ℚ) : ℤ := if 0 ≤ q then ⌊q⌋ else ⌈q⌉

/-- `classes[int(prediction)]` with `classes = ['Non GDM', 'GDM']`
(gdm_backend.py lines 425-426), including Python's negative indexing;
any other index raises. -/
def classesIdx (i : ℤ) : Except String String :=
  if i = 0 ∨ i = -2 then Except.ok "Non GDM"
  else if i = 1 ∨ i = -1 then Except.ok "GDM"
  else Except.error "IndexError: classes"

/-- Probability extraction (gdm_backend.py lines 429-434 and
fastapi_backend_modified.py lines 272-277): returns
`(non_gdm_probability, gdm_probability)`. -/
def probPair (prediction : ℚ) (proba : List ℚ) : Except String (ℚ × ℚ) :=
  if 2 ≤ proba.length then Except.ok (proba.getD 0 0, proba.getD 1 0)
  else
    match proba with
    | [] => Except.error "IndexError: proba"
    | p0 :: _ =>
      let g := if prediction = 1 then p0 else 1 - p0
      Except.ok (1 - g, g)

/-- `high_risk_factors` (gdm_backend.py lines 444-450): how many of the
five high-risk markers hold on the raw record, with `.get` defaults. -/
def highRiskCount (p : Rec) : ℕ :=
  (if 30 ≤ recGetD p "BMI" 20 then 1 else 0) +
  (if 140 ≤ recGetD p "OGTT" 100 then 1 else 0) +
  (if 35 ≤ recGetD p "Age" 20 then 1 else 0) +
  (if recGetD p "Family History" 0 = 1 then 1 else 0) +
  (if recGetD p "PCOS" 0 = 1 then 1 else 0)

/-- Risk category of the extended variant (gdm_backend.py lines 452-457). -/
def riskCategoryExt (g : ℚ) (p : Rec) : String :=
  if 0.7 ≤ g ∨ 3 ≤ highRiskCount p then "High Risk"
  else if 0.4 ≤ g ∨ 2 ≤ highRiskCount p then "Moderate Risk"
  else "Low Risk"

/-- The named risk-factor flags of the extended variant. -/
structure RiskFactorsExt where
  obesity : Bool
  overweight : Bool
  high_glucose : Bool
  impaired_glucose : Bool
  family_history : Bool
  pcos : Bool
  prediabetes : Bool
  advanced_age : Bool
  high_bp : Bool
  previous_complications : Bool
  sedentary_lifestyle : Bool
  low_hdl : Bool
  anemia : Bool
  multiple_pregnancies : Bool
deriving Repr, DecidableEq

/-- Risk-factor analysis of the extended variant
(gdm_backend.py lines 463-484). -/
def extRiskFactors (p : Rec) : RiskFactorsExt where
  obesity := decide (30 ≤ recGetD p "BMI" 20)
  overweight := decide (25 ≤ recGetD p "BMI" 20 ∧ recGetD p "BMI" 20 < 30)
  high_glucose := decide (140 ≤ recGetD p "OGTT" 100)
  impaired_glucose := decide (120 ≤ recGetD p "OGTT" 100 ∧ recGetD p "OGTT" 100 < 140)
  family_history := decide (recGetD p "Family History" 0 = 1)
  pcos := decide (recGetD p "PCOS" 0 = 1)
  prediabetes := decide (recGetD p "Prediabetes" 0 = 1)
  advanced_age := decide (35 ≤ recGetD p "Age" 20)
  high_bp := decide (140 ≤ recGetD p "Sys BP" 0 ∨ 90 ≤ recGetD p "Dia BP" 0)
  previous_complications :=
    decide (recGetD p "Large Child or Birth Default" 0 = 1 ∨
      recGetD p "unexplained prenetal loss" 0 = 1)
  sedentary_lifestyle := decide (recGetD p "Sedentary Lifestyle" 0 = 1)
  low_hdl := decide (recGetD p "HDL" 50 < 40)
  anemia := decide (recGetD p "Hemoglobin" 12 < 11)
  multiple_pregnancies := decide (2 < recGetD p "No of Pregnancy" 1)

/-- The prediction outcome of the extended variant (the fields the
claims are about; textual recommendations are omitted). -/
structure OutcomeExt where
  prediction : String
  gdm_probability : ℚ
  non_gdm_probability : ℚ
  risk_category : String
  confidence : ℚ
  risk_factors : RiskFactorsExt
deriving Repr, DecidableEq

/-- Outcome assembly of the extended `predict_gdm`
(gdm_backend.py lines 419-521), given the ensemble's prediction and
probability matrices.  The label from `classes[int(prediction)]`
(line 426) is unconditionally overwritten by the threshold comparison
(lines 437-441), but the indexing can still raise, so it is kept. -/
def predict_gdm_extended (st : PreprocessingState) (patient : Rec)
    (predictions : List ℚ) (probabilities : List (List ℚ)) : Except String OutcomeExt :=
  let prediction := predictions.headD 0
  let proba := probabilities.headD [1, 0]
  match classesIdx (pyInt prediction) with
  | Except.error e => Except.error e
  | Except.ok _ =>
    match probPair prediction proba with
    | Except.error e => Except.error e
    | Except.ok (nonG, g) =>
      let t := (st.optimal_threshold).getD 0.5
      let label := if t ≤ g then "GDM" else "Non GDM"
      Except.ok
        { prediction := label
          gdm_probability := g
          non_gdm_probability := nonG
          risk_category := riskCategoryExt g patient
          confidence := max g nonG
          risk_factors := extRiskFactors patient }

/-! ### Risk interpreter, legacy/simple variant
(fastapi_backend_modified.py `predict_gdm`, lines 242-323) -/

/-- The named risk-factor flags of the simple variant. -/
structure RiskFactorsSimple where
  family_history : Bool
  pcos : Bool
  prediabetes : Bool
  advanced_age : Bool
  high_bp : Bool
  previous_complications : Bool
  sedentary_lifestyle : Bool
  low_hdl : Bool
  anemia : Bool
  multiple_pregnancies : Bool
deriving Repr, DecidableEq

/-- Risk-factor analysis of the simple variant
(fastapi_backend_modified.py lines 297-314).  Note the strict `>`
comparisons for `advanced_age` and `high_bp`, and the 0 defaults. -/
def simpleRiskFactors (p : Rec) : RiskFactorsSimple where
  family_history := decide (recGetD p "Family History" 0 = 1)
  pcos := decide (recGetD p "PCOS" 0 = 1)
  prediabetes := decide (recGetD p "Prediabetes" 0 = 1)
  advanced_age := decide (35 < recGetD p "Age" 0)
  high_bp := decide (140 < recGetD p "Sys BP" 0 ∨ 90 < recGetD p "Dia BP" 0)
  previous_complications :=
    decide (recGetD p "Large Child or Birth Default" 0 = 1 ∨
      recGetD p "unexplained prenetal loss" 0 = 1)
  sedentary_lifestyle := decide (recGetD p "Sedentary Lifestyle" 0 = 1)
  low_hdl := decide (recGetD p "HDL" 0 < 40)
  anemia := decide (recGetD p "Hemoglobin" 0 < 11)
  multiple_pregnancies := decide (2 < recGetD p "No of Pregnancy" 0)

/-- Risk category of the simple variant
(fastapi_backend_modified.py lines 286-291). -/
def riskCategorySimple (g : ℚ) : String :=
  if g < 0.3 then "Low Risk" else if g < 0.6 then "Moderate Risk" else "High Risk"

/-- The prediction outcome of the simple variant. -/
structure OutcomeSimple where
  prediction : String
  gdm_probability : ℚ
  non_gdm_probability : ℚ
  risk_category : String
  confidence : ℚ
  risk_factors : RiskFactorsSimple
deriving Repr, DecidableEq

/-- Default back-fill of the simple `predict_gdm`
(fastapi_backend_modified.py lines 249-258). -/
def simpleDefaults (p : Rec) : Rec :=
  let p1 := if recHas p "Case Number" then p else recSet p "Case Number" (Val.num 0)
  let p2 := if recHas p1 "BMI" then p1 else recSet p1 "BMI" (Val.num 22)
  if recHas p2 "OGTT" then p2 else recSet p2 "OGTT" (Val.num 120)

/-- Outcome assembly of the simple `predict_gdm`
(fastapi_backend_modified.py lines 242-323), given the problem type and
the ensemble's prediction and probability matrices. -/
def predict_gdm_simple (problem_type : String) (patient : Rec)
    (predictions : List ℚ) (probabilities : List (List ℚ)) : Except String OutcomeSimple :=
  let patient' := simpleDefaults patient
  let prediction := predictions.headD 0
  let proba := probabilities.headD [1, 0]
  if problem_type = "classification" then
    match classesIdx (pyInt prediction) with
    | Except.error e => Except.error e
    | Except.ok label =>
      match probPair prediction proba with
      | Except.error e => Except.error e
      | Except.ok (nonG, g) =>
        Except.ok
          { prediction := label
            gdm_probability := g
            non_gdm_probability := nonG
            risk_category := riskCategorySimple g
            confidence := max g nonG
            risk_factors := simpleRiskFactors patient' }
  else
    let g := prediction
    Except.ok
      { prediction := if (0.5 : ℚ) < prediction then "GDM" else "Non GDM"
        gdm_probability := g
        non_gdm_probability := 1 - g
        risk_category := riskCategorySimple g
        confidence := max g (1 - g)
        risk_factors := simpleRiskFactors patient' }

/-! ### Concrete fixtures -/

/-- A column that is either present with a numeric value or absent. -/
def optCol (k : String) : Option ℚ → Rec
  | some q => [(k, Val.num q)]
  | none => []

/-- A patient record with mandatory Age and pregnancy count and optional
clinical columns, used to state presence-conditional behaviour. -/
def mkPatient (age npreg : ℚ) (bmi ogtt sys dia fh pcos : Option ℚ) : Rec :=
  [("Age", Val.num age), ("No of Pregnancy", Val.num npreg)] ++
    optCol "BMI" bmi ++ optCol "OGTT" ogtt ++
    optCol "Sys BP" sys ++ optCol "Dia BP" dia ++
    optCol "Family History" fh ++ optCol "PCOS" pcos

/-- The high-risk test profile of `test_high_risk`
(gdm_backend.py lines 569-590). -/
def recHighRisk : Rec :=
  [("Age", Val.num 38),
   ("No of Pregnancy", Val.num 3),
   ("Gestation in previous Pregnancy", Val.num 1),
   ("BMI", Val.num 32.5),
   ("OGTT", Val.num 180),
   ("HDL", Val.num 35),
   ("Family History", Val.num 1),
   ("unexplained prenetal loss", Val.num 1),
   ("Large Child or Birth Default", Val.num 1),
   ("PCOS", Val.num 1),
   ("Sys BP", Val.num 145),
   ("Dia BP", Val.num 95),
   ("Hemoglobin", Val.num 10.5),
   ("Sedentary Lifestyle", Val.num 1),
   ("Prediabetes", Val.num 1)]

/-- A record whose BMI is exactly 25. -/
def recBMI25 : Rec :=
  [("Age", Val.num 30), ("No of Pregnancy", Val.num 1), ("BMI", Val.num 25)]

/-- A record whose BMI is exactly 24.999. -/
def recBMI24999 : Rec :=
  [("Age", Val.num 30), ("No of Pregnancy", Val.num 1), ("BMI", Val.num 24.999)]

/-- A record whose BMI is exactly 18.5. -/
def recBMI185 : Rec :=
  [("Age", Val.num 30), ("No of Pregnancy", Val.num 1), ("BMI", Val.num 18.5)]

/-- A record whose OGTT is exactly 140. -/
def recOGTT140 : Rec :=
  [("Age", Val.num 30), ("No of Pregnancy", Val.num 1), ("OGTT", Val.num 140)]

/-- A record with a BMI column but no Age column. -/
def recNoAge : Rec := [("BMI", Val.num 32)]

/-- A record with Age but no pregnancy-count column. -/
def recNoPreg : Rec := [("Age", Val.num 30), ("BMI", Val.num 32)]

/-- A record at the exact blood-pressure thresholds 140/90. -/
def recBP14090 : Rec :=
  [("Age", Val.num 30), ("No of Pregnancy", Val.num 1),
   ("Sys BP", Val.num 140), ("Dia BP", Val.num 90)]

/-- A preprocessing state with an explicit optimal threshold of 0.75. -/
def stA : PreprocessingState := { optimal_threshold := some 0.75, feature_columns := [] }

/-- A preprocessing state with no stored optimal threshold. -/
def stNone : PreprocessingState := { optimal_threshold := none, feature_columns := [] }

/-- The risk-factor flags of the high-risk test profile. -/
def rfHigh : RiskFactorsExt :=
  { obesity := true, overweight := false, high_glucose := true, impaired_glucose := false
    family_history := true, pcos := true, prediabetes := true, advanced_age := true
    high_bp := true, previous_complications := true, sedentary_lifestyle := true
    low_hdl := true, anemia := true, multiple_pregnancies := true }

/-- The outcome of the extended interpreter on the high-risk profile at
probability row [1/4, 3/4] under threshold 0.75. -/
def oThr : OutcomeExt :=
  { prediction := "GDM", gdm_probability := 3/4, non_gdm_probability := 1/4
    risk_category := "High Risk", confidence := 3/4, risk_factors := rfHigh }

/-- The outcome of the extended interpreter on the high-risk profile at
probability row [0, 1] under the default threshold. -/
def oC5 : OutcomeExt :=
  { prediction := "GDM", gdm_probability := 1, non_gdm_probability := 0
    risk_category := "High Risk", confidence := 1, risk_factors := rfHigh }

/-- A model that predicts class 1 for every row and exposes no
probability output. -/
def mOne : MLModel :=
  { predict := fun X => some (X.map (fun _ => 1)), predictProba := none }

/-- A model whose predict always raises. -/
def mFail : MLModel := { predict := fun _ => none, predictProba := none }

/-- One base model plus an ensemble meta-model. -/
def modelsA : ModelSet := [("LogReg", mOne), ("Ensemble", mOne)]

/-- Two base models, one of which always fails, plus the meta-model. -/
def modelsB : ModelSet := [("A", mOne), ("B", mFail), ("Ensemble", mOne)]

/-- A one-row feature matrix. -/
def Xone : List (List ℚ) := [[1, 2, 3]]

/-- A small training feature schema for the fill-and-align fixture. -/
def cols0 : List String := ["Age", "BMI_Risk_Score", "Hemoglobin", "Sedentary Lifestyle"]

/-- A record carrying only an Age column. -/
def r0 : Rec := [("Age", Val.num 41)]


/-! ### Helper lemmas about record operations -/

theorem recFind_set_self (r : Rec) (k : String) (v : Val) :
    recFind (recSet r k v) k = some v := by
  induction r with
  | nil => simp [recSet, recFind]
  | cons hd tl ih =>
    obtain ⟨k', v'⟩ := hd
    by_cases hk : k' = k
    · subst hk; simp [recSet, recFind]
    · simp [recSet, recFind, hk, ih]

theorem recFind_set_ne (r : Rec) (k k2 : String) (v : Val) (h : k ≠ k2) :
    recFind (recSet r k v) k2 = recFind r k2 := by
  induction r with
  | nil => simp [recSet, recFind, h]
  | cons hd tl ih =>
    obtain ⟨k', v'⟩ := hd
    by_cases hk : k' = k
    · subst hk; simp [recSet, recFind, h, ih]
    · simp only [recSet, if_neg hk, recFind]
      by_cases hk2 : k' = k2 <;> simp [hk2, ih]

theorem recNum_set_ne (r : Rec) (k k2 : String) (v : Val) (h : k ≠ k2) :
    recNum (recSet r k v) k2 = recNum r k2 := by
  simp [recNum, recFind_set_ne r k k2 v h]

theorem recHas_set_self (r : Rec) (k : String) (v : Val) :
    recHas (recSet r k v) k = true := by
  simp [recHas, recFind_set_self]

theorem recHas_set_ne (r : Rec) (k k2 : String) (v : Val) (h : k ≠ k2) :
    recHas (recSet r k v) k2 = recHas r k2 := by
  simp [recHas, recFind_set_ne r k k2 v h]

/-! ### C1 -/

/-- C1 counterexample: the claim says a record with BMI exactly 25.0 is
assigned BMI_Category 'Overweight'.  In fact `pd.cut`'s default bins are
right-closed, so the pipeline assigns 'Normal' to BMI = 25.0, and
likewise OGTT = 140 falls in 'Normal' and OGTT = 200 in 'Impaired',
refuting the claimed half-open-below boundaries. -/
theorem bmi25_is_assigned_normal_not_overweight :
    afeColumn recBMI25 "BMI_Category" = some (Val.cat "Normal") ∧
    Val.cat "Normal" ≠ Val.cat "Overweight" ∧
    ogttCategory 140 = Val.cat "Normal" ∧
    ogttCategory 200 = Val.cat "Impaired" := by
  refine ⟨?_, by decide, ?_, ?_⟩
  · simp [afeColumn, advanced_feature_engineering, bmiBlock, ogttBlock, combinedBlock, interactionBlock, bpBlock, riskTerms, highRiskBmiBlock, highRiskOgttBlock, logBlock, recBMI25, recNum, recFind, recSet,
      recGetD, bmiCategory, bmiRiskScore, Except.toOption]
    norm_num
  · norm_num [ogttCategory]
  · norm_num [ogttCategory]

/-- C1 (amended): the BMI and OGTT buckets are left-open and
right-closed: Underweight (0,18.5], Normal (18.5,25], Overweight
(25,30], Obese (30,50]; OGTT Normal (0,140], Impaired (140,200],
Diabetic (200,1000]; values outside the outer bounds are unbinned
(NaN).  In particular BMI = 25.0 and BMI = 24.999 are both 'Normal',
and the pipeline assigns these categories through
`advanced_feature_engineering`. -/
theorem bmi_ogtt_bins_right_closed :
    (∀ b : ℚ, 0 < b → b ≤ 18.5 → bmiCategory b = Val.cat "Underweight") ∧
    (∀ b : ℚ, 18.5 < b → b ≤ 25 → bmiCategory b = Val.cat "Normal") ∧
    (∀ b : ℚ, 25 < b → b ≤ 30 → bmiCategory b = Val.cat "Overweight") ∧
    (∀ b : ℚ, 30 < b → b ≤ 50 → bmiCategory b = Val.cat "Obese") ∧
    (∀ g : ℚ, 0 < g → g ≤ 140 → ogttCategory g = Val.cat "Normal") ∧
    (∀ g : ℚ, 140 < g → g ≤ 200 → ogttCategory g = Val.cat "Impaired") ∧
    (∀ g : ℚ, 200 < g → g ≤ 1000 → ogttCategory g = Val.cat "Diabetic") ∧
    afeColumn recBMI25 "BMI_Category" = some (Val.cat "Normal") ∧
    afeColumn recBMI24999 "BMI_Category" = some (Val.cat "Normal") ∧
    afeColumn recOGTT140 "OGTT_Category" = some (Val.cat "Normal") := by
  refine ⟨?_, ?_, ?_, ?_, ?_, ?_, ?_, ?_, ?_, ?_⟩
  · intro b h1 h2; simp only [bmiCategory]; rw [if_neg (by linarith), if_pos h2]
  · intro b h1 h2
    simp only [bmiCategory]
    rw [if_neg (by linarith), if_neg (by linarith), if_pos h2]
  · intro b h1 h2
    simp only [bmiCategory]
    rw [if_neg (by linarith), if_neg (by linarith), if_neg (by linarith), if_pos h2]
  · intro b h1 h2
    simp only [bmiCategory]
    rw [if_neg (by linarith), if_neg (by linarith), if_neg (by linarith),
      if_neg (by linarith), if_pos h2]
  · intro g h1 h2; simp only [ogttCategory]; rw [if_neg (by linarith), if_pos h2]
  · intro g h1 h2
    simp only [ogttCategory]
    rw [if_neg (by linarith), if_neg (by linarith), if_pos h2]
  · intro g h1 h2
    simp only [ogttCategory]
    rw [if_neg (by linarith), if_neg (by linarith), if_neg (by linarith), if_pos h2]
  · simp [afeColumn, advanced_feature_engineering, bmiBlock, ogttBlock, combinedBlock, interactionBlock, bpBlock, riskTerms, highRiskBmiBlock, highRiskOgttBlock, logBlock, recBMI25, recNum, recFind, recSet,
      recGetD, bmiCategory, bmiRiskScore, Except.toOption]
    norm_num
  · simp [afeColumn, advanced_feature_engineering, bmiBlock, ogttBlock, combinedBlock, interactionBlock, bpBlock, riskTerms, highRiskBmiBlock, highRiskOgttBlock, logBlock, recBMI24999, recNum, recFind, recSet,
      recGetD, bmiCategory, bmiRiskScore, Except.toOption]
    norm_num
  · simp [afeColumn, advanced_feature_engineering, bmiBlock, ogttBlock, combinedBlock, interactionBlock, bpBlock, riskTerms, highRiskBmiBlock, highRiskOgttBlock, logBlock, recOGTT140, recNum, recFind, recSet,
      recGetD, ogttCategory, ogttRiskScore, Except.toOption]
    try norm_num

/-- C1 witness: the amended bucket characterisations instantiated at the
boundary values 25 (Normal), 18.5 (Underweight) and 140 (OGTT Normal). -/
theorem bmi_ogtt_bins_right_closed_witness :
    bmiCategory 25 = Val.cat "Normal" ∧
    bmiCategory 18.5 = Val.cat "Underweight" ∧
    ogttCategory 140 = Val.cat "Normal" :=
  ⟨bmi_ogtt_bins_right_closed.2.1 25 (by norm_num) (by norm_num),
   bmi_ogtt_bins_right_closed.1 18.5 (by norm_num) (by norm_num),
   bmi_ogtt_bins_right_closed.2.2.2.2.1 140 (by norm_num) (by norm_num)⟩

/-! ### C10 -/

/-- C10: at the shared threshold values, the binned category and the
ordinal score disagree: BMI = 18.5 is categorised 'Underweight' yet
scores 0 (the normal score), and OGTT = 140 is categorised 'Normal' yet
scores 3 (the impaired score), because `pd.cut` bins are right-closed
while the `np.where` scores use strict-less-than cutoffs. -/
theorem category_score_disagree_at_thresholds :
    afeColumn recBMI185 "BMI_Category" = some (Val.cat "Underweight") ∧
    afeColumn recBMI185 "BMI_Risk_Score" = some (Val.num 0) ∧
    afeColumn recOGTT140 "OGTT_Category" = some (Val.cat "Normal") ∧
    afeColumn recOGTT140 "OGTT_Risk_Score" = some (Val.num 3) := by
  refine ⟨?_, ?_, ?_, ?_⟩ <;>
    · simp [afeColumn, advanced_feature_engineering, bmiBlock, ogttBlock, combinedBlock, interactionBlock, bpBlock, riskTerms, highRiskBmiBlock, highRiskOgttBlock, logBlock, recBMI185, recOGTT140, recNum,
        recFind, recSet, recGetD, bmiCategory, bmiRiskScore, ogttCategory, ogttRiskScore,
        Except.toOption]
      try norm_num

/-! ### C2 -/

/-- C2 counterexample: the claim says every derivation is conditional on
its source column and an absent source merely omits that derived column.
In fact `df['Age']` and `df['No of Pregnancy']` are read unconditionally,
so a record with BMI present but Age absent makes the whole stage raise
`KeyError`, and the caller's fallback then drops every derived column
(including the BMI ones whose source was present). -/
theorem feature_engineering_raises_without_age :
    advanced_feature_engineering recNoAge = Except.error "KeyError: Age" ∧
    advanced_feature_engineering recNoPreg = Except.error "KeyError: No of Pregnancy" ∧
    enhanceOrFallback recNoAge = recNoAge := by
  refine ⟨?_, ?_, ?_⟩
  · simp [advanced_feature_engineering, bmiBlock, ogttBlock, combinedBlock, interactionBlock, bpBlock, recNoAge, recNum, recFind, recSet, recGetD]
  · simp [advanced_feature_engineering, bmiBlock, ogttBlock, combinedBlock, interactionBlock, bpBlock, recNoPreg, recNum, recFind, recSet, recGetD]
  · simp [enhanceOrFallback, advanced_feature_engineering, bmiBlock, ogttBlock, combinedBlock, interactionBlock, bpBlock, recNoAge, recNum, recFind,
      recSet, recGetD, Except.toOption]

/-! Frame lemmas for the feature-engineering blocks. -/

theorem recFind_append (l1 l2 : Rec) (k : String) :
    recFind (l1 ++ l2) k = (recFind l1 k).or (recFind l2 k) := by
  induction l1 with
  | nil => simp [recFind]
  | cons hd tl ih =>
    obtain ⟨k', v⟩ := hd
    by_cases hk : k' = k <;> simp [recFind, hk, ih]

theorem recFind_optCol_self (k : String) (o : Option ℚ) :
    recFind (optCol k o) k = o.map Val.num := by
  cases o <;> simp [optCol, recFind]

theorem recFind_optCol_ne (k k2 : String) (o : Option ℚ) (h : ¬ k = k2) :
    recFind (optCol k o) k2 = none := by
  cases o <;> simp [optCol, recFind, h]

theorem recNum_set_num (r : Rec) (k : String) (q : ℚ) :
    recNum (recSet r k (Val.num q)) k = some q := by
  simp [recNum, recFind_set_self]

theorem recNum_bmiBlock_ne (r : Rec) (k : String)
    (h1 : ¬ k = "BMI_Category") (h2 : ¬ k = "BMI_Risk_Score") :
    recNum (bmiBlock r) k = recNum r k := by
  unfold bmiBlock
  cases recNum r "BMI" with
  | none => rfl
  | some b =>
    rw [recNum_set_ne _ _ _ _ (fun he => h2 he.symm),
      recNum_set_ne _ _ _ _ (fun he => h1 he.symm)]

theorem recHas_bmiBlock_ne (r : Rec) (k : String)
    (h1 : ¬ k = "BMI_Category") (h2 : ¬ k = "BMI_Risk_Score") :
    recHas (bmiBlock r) k = recHas r k := by
  unfold bmiBlock
  cases recNum r "BMI" with
  | none => rfl
  | some b =>
    rw [recHas_set_ne _ _ _ _ (fun he => h2 he.symm),
      recHas_set_ne _ _ _ _ (fun he => h1 he.symm)]

theorem recHas_bmiBlock_score (r : Rec) (h : recHas r "BMI_Risk_Score" = false) :
    recHas (bmiBlock r) "BMI_Risk_Score" = (recNum r "BMI").isSome := by
  unfold bmiBlock
  cases recNum r "BMI" with
  | none => simpa using h
  | some b => simp [recHas_set_self]

theorem recHas_bmiBlock_cat (r : Rec) (h : recHas r "BMI_Category" = false) :
    recHas (bmiBlock r) "BMI_Category" = (recNum r "BMI").isSome := by
  unfold bmiBlock
  cases recNum r "BMI" with
  | none => simpa using h
  | some b => rw [recHas_set_ne _ _ _ _ (by decide)]; simp [recHas_set_self]

theorem recNum_bmiBlock_score (r : Rec) (b : ℚ) (h : recNum r "BMI" = some b) :
    recNum (bmiBlock r) "BMI_Risk_Score" = some (bmiRiskScore b) := by
  unfold bmiBlock
  rw [h, recNum_set_num]

theorem recNum_ogttBlock_ne (r : Rec) (k : String)
    (h1 : ¬ k = "OGTT_Category") (h2 : ¬ k = "OGTT_Risk_Score") :
    recNum (ogttBlock r) k = recNum r k := by
  unfold ogttBlock
  cases recNum r "OGTT" with
  | none => rfl
  | some g =>
    rw [recNum_set_ne _ _ _ _ (fun he => h2 he.symm),
      recNum_set_ne _ _ _ _ (fun he => h1 he.symm)]

theorem recHas_ogttBlock_ne (r : Rec) (k : String)
    (h1 : ¬ k = "OGTT_Category") (h2 : ¬ k = "OGTT_Risk_Score") :
    recHas (ogttBlock r) k = recHas r k := by
  unfold ogttBlock
  cases recNum r "OGTT" with
  | none => rfl
  | some g =>
    rw [recHas_set_ne _ _ _ _ (fun he => h2 he.symm),
      recHas_set_ne _ _ _ _ (fun he => h1 he.symm)]

theorem recHas_ogttBlock_score (r : Rec) (h : recHas r "OGTT_Risk_Score" = false) :
    recHas (ogttBlock r) "OGTT_Risk_Score" = (recNum r "OGTT").isSome := by
  unfold ogttBlock
  cases recNum r "OGTT" with
  | none => simpa using h
  | some g => simp [recHas_set_self]

theorem recHas_ogttBlock_cat (r : Rec) (h : recHas r "OGTT_Category" = false) :
    recHas (ogttBlock r) "OGTT_Category" = (recNum r "OGTT").isSome := by
  unfold ogttBlock
  cases recNum r "OGTT" with
  | none => simpa using h
  | some g => rw [recHas_set_ne _ _ _ _ (by decide)]; simp [recHas_set_self]

theorem recNum_ogttBlock_score (r : Rec) (g : ℚ) (h : recNum r "OGTT" = some g) :
    recNum (ogttBlock r) "OGTT_Risk_Score" = some (ogttRiskScore g) := by
  unfold ogttBlock
  rw [h, recNum_set_num]

theorem recNum_none_of_has_false (r : Rec) (k : String) (h : recHas r k = false) :
    recNum r k = none := by
  have h2 : recFind r k = none := by
    cases hf : recFind r k with
    | none => rfl
    | some v => rw [recHas, hf] at h; simp at h
  simp [recNum, h2]

theorem recNum_bmiBlock_score_map (r : Rec) (h : recHas r "BMI_Risk_Score" = false) :
    recNum (bmiBlock r) "BMI_Risk_Score" = (recNum r "BMI").map bmiRiskScore := by
  unfold bmiBlock
  cases hb : recNum r "BMI" with
  | none => simpa using recNum_none_of_has_false r _ h
  | some b => simp [recNum_set_num]

theorem recNum_ogttBlock_score_map (r : Rec) (h : recHas r "OGTT_Risk_Score" = false) :
    recNum (ogttBlock r) "OGTT_Risk_Score" = (recNum r "OGTT").map ogttRiskScore := by
  unfold ogttBlock
  cases hb : recNum r "OGTT" with
  | none => simpa using recNum_none_of_has_false r _ h
  | some g => simp [recNum_set_num]

theorem recNum_combinedBlock_ne (r : Rec) (k : String) (h : ¬ k = "BMI_OGTT_Risk") :
    recNum (combinedBlock r) k = recNum r k := by
  unfold combinedBlock
  cases recNum r "BMI_Risk_Score" <;> cases recNum r "OGTT_Risk_Score" <;>
    simp [recNum_set_ne _ _ _ _ (fun he => h he.symm)]

theorem recHas_combinedBlock_ne (r : Rec) (k : String) (h : ¬ k = "BMI_OGTT_Risk") :
    recHas (combinedBlock r) k = recHas r k := by
  unfold combinedBlock
  cases recNum r "BMI_Risk_Score" <;> cases recNum r "OGTT_Risk_Score" <;>
    simp [recHas_set_ne _ _ _ _ (fun he => h he.symm)]

theorem recHas_combinedBlock (r : Rec) (h : recHas r "BMI_OGTT_Risk" = false) :
    recHas (combinedBlock r) "BMI_OGTT_Risk" =
      ((recNum r "BMI_Risk_Score").isSome && (recNum r "OGTT_Risk_Score").isSome) := by
  unfold combinedBlock
  cases recNum r "BMI_Risk_Score" <;> cases recNum r "OGTT_Risk_Score" <;>
    simp [recHas_set_self, h]

theorem recNum_interactionBlock_ne (r : Rec) (k : String) (h : ¬ k = "Age_BMI_Interaction") :
    recNum (interactionBlock r) k = recNum r k := by
  unfold interactionBlock
  cases recNum r "Age" <;> cases recNum r "BMI" <;>
    simp [recNum_set_ne _ _ _ _ (fun he => h he.symm)]

theorem recHas_interactionBlock_ne (r : Rec) (k : String) (h : ¬ k = "Age_BMI_Interaction") :
    recHas (interactionBlock r) k = recHas r k := by
  unfold interactionBlock
  cases recNum r "Age" <;> cases recNum r "BMI" <;>
    simp [recHas_set_ne _ _ _ _ (fun he => h he.symm)]

theorem recHas_interactionBlock (r : Rec) (h : recHas r "Age_BMI_Interaction" = false) :
    recHas (interactionBlock r) "Age_BMI_Interaction" =
      ((recNum r "Age").isSome && (recNum r "BMI").isSome) := by
  unfold interactionBlock
  cases recNum r "Age" <;> cases recNum r "BMI" <;> simp [recHas_set_self, h]

theorem recNum_bpBlock_ne (r : Rec) (k : String)
    (h1 : ¬ k = "BP_Ratio") (h2 : ¬ k = "Pulse_Pressure")
    (h3 : ¬ k = "Mean_Arterial_Pressure") (h4 : ¬ k = "Hypertensive") :
    recNum (bpBlock r) k = recNum r k := by
  unfold bpBlock
  cases recNum r "Sys BP" <;> cases recNum r "Dia BP" <;>
    simp [recNum_set_ne _ _ _ _ (fun he => h1 he.symm),
      recNum_set_ne _ _ _ _ (fun he => h2 he.symm),
      recNum_set_ne _ _ _ _ (fun he => h3 he.symm),
      recNum_set_ne _ _ _ _ (fun he => h4 he.symm)]

theorem recHas_bpBlock_ne (r : Rec) (k : String)
    (h1 : ¬ k = "BP_Ratio") (h2 : ¬ k = "Pulse_Pressure")
    (h3 : ¬ k = "Mean_Arterial_Pressure") (h4 : ¬ k = "Hypertensive") :
    recHas (bpBlock r) k = recHas r k := by
  unfold bpBlock
  cases recNum r "Sys BP" <;> cases recNum r "Dia BP" <;>
    simp [recHas_set_ne _ _ _ _ (fun he => h1 he.symm),
      recHas_set_ne _ _ _ _ (fun he => h2 he.symm),
      recHas_set_ne _ _ _ _ (fun he => h3 he.symm),
      recHas_set_ne _ _ _ _ (fun he => h4 he.symm)]

theorem recHas_bpBlock_ratio (r : Rec) (h : recHas r "BP_Ratio" = false) :
    recHas (bpBlock r) "BP_Ratio" =
      ((recNum r "Sys BP").isSome && (recNum r "Dia BP").isSome) := by
  unfold bpBlock
  cases recNum r "Sys BP" <;> cases recNum r "Dia BP" <;>
    simp [recHas_set_self, recHas_set_ne, h]

theorem recHas_bpBlock_hyper (r : Rec) (h : recHas r "Hypertensive" = false) :
    recHas (bpBlock r) "Hypertensive" =
      ((recNum r "Sys BP").isSome && (recNum r "Dia BP").isSome) := by
  unfold bpBlock
  cases recNum r "Sys BP" <;> cases recNum r "Dia BP" <;> simp [recHas_set_self, h]

theorem recNum_bpBlock_hyper (r : Rec) (h : recHas r "Hypertensive" = false) :
    recNum (bpBlock r) "Hypertensive" =
      (match recNum r "Sys BP", recNum r "Dia BP" with
       | some s, some dd => some ((if 140 ≤ s ∨ 90 ≤ dd then (1 : ℚ) else 0))
       | _, _ => none) := by
  unfold bpBlock
  cases recNum r "Sys BP" <;> cases recNum r "Dia BP" <;>
    simp [recNum_set_num, recNum_none_of_has_false r _ h]

theorem recNum_highRiskBmiBlock_ne (r : Rec) (k : String) (h : ¬ k = "High_Risk_BMI") :
    recNum (highRiskBmiBlock r) k = recNum r k := by
  unfold highRiskBmiBlock
  cases recNum r "BMI" <;> simp [recNum_set_ne _ _ _ _ (fun he => h he.symm)]

theorem recHas_highRiskBmiBlock_ne (r : Rec) (k : String) (h : ¬ k = "High_Risk_BMI") :
    recHas (highRiskBmiBlock r) k = recHas r k := by
  unfold highRiskBmiBlock
  cases recNum r "BMI" <;> simp [recHas_set_ne _ _ _ _ (fun he => h he.symm)]

theorem recHas_highRiskBmiBlock (r : Rec) (h : recHas r "High_Risk_BMI" = false) :
    recHas (highRiskBmiBlock r) "High_Risk_BMI" = (recNum r "BMI").isSome := by
  unfold highRiskBmiBlock
  cases recNum r "BMI" <;> simp [recHas_set_self, h]

theorem recNum_highRiskOgttBlock_ne (r : Rec) (k : String) (h : ¬ k = "High_Risk_OGTT") :
    recNum (highRiskOgttBlock r) k = recNum r k := by
  unfold highRiskOgttBlock
  cases recNum r "OGTT" <;> simp [recNum_set_ne _ _ _ _ (fun he => h he.symm)]

theorem recHas_highRiskOgttBlock_ne (r : Rec) (k : String) (h : ¬ k = "High_Risk_OGTT") :
    recHas (highRiskOgttBlock r) k = recHas r k := by
  unfold highRiskOgttBlock
  cases recNum r "OGTT" <;> simp [recHas_set_ne _ _ _ _ (fun he => h he.symm)]

theorem recHas_highRiskOgttBlock (r : Rec) (h : recHas r "High_Risk_OGTT" = false) :
    recHas (highRiskOgttBlock r) "High_Risk_OGTT" = (recNum r "OGTT").isSome := by
  unfold highRiskOgttBlock
  cases recNum r "OGTT" <;> simp [recHas_set_self, h]

theorem recNum_logBlock_ne (r : Rec) (k : String)
    (h1 : ¬ k = "BMI_log") (h2 : ¬ k = "OGTT_log") :
    recNum (logBlock r) k = recNum r k := by
  unfold logBlock
  cases hb : recNum r "BMI" with
  | none =>
    cases hg : recNum r "OGTT" with
    | none => simp [hb, hg]
    | some g => simp [hb, hg, recNum_set_ne _ _ _ _ (fun he => h2 he.symm)]
  | some b =>
    cases hg : recNum (recSet r "BMI_log" (Val.logv b)) "OGTT" with
    | none => simp [hb, hg, recNum_set_ne _ _ _ _ (fun he => h1 he.symm)]
    | some g =>
      simp [hb, hg, recNum_set_ne _ _ _ _ (fun he => h1 he.symm),
        recNum_set_ne _ _ _ _ (fun he => h2 he.symm)]

theorem recHas_logBlock_ne (r : Rec) (k : String)
    (h1 : ¬ k = "BMI_log") (h2 : ¬ k = "OGTT_log") :
    recHas (logBlock r) k = recHas r k := by
  unfold logBlock
  cases hb : recNum r "BMI" with
  | none =>
    cases hg : recNum r "OGTT" with
    | none => simp [hb, hg]
    | some g => simp [hb, hg, recHas_set_ne _ _ _ _ (fun he => h2 he.symm)]
  | some b =>
    cases hg : recNum (recSet r "BMI_log" (Val.logv b)) "OGTT" with
    | none => simp [hb, hg, recHas_set_ne _ _ _ _ (fun he => h1 he.symm)]
    | some g =>
      simp [hb, hg, recHas_set_ne _ _ _ _ (fun he => h1 he.symm),
        recHas_set_ne _ _ _ _ (fun he => h2 he.symm)]

theorem recNum_mkPatient_age (age npreg : ℚ) (bmi ogtt sys dia fh pcos : Option ℚ) :
    recNum (mkPatient age npreg bmi ogtt sys dia fh pcos) "Age" = some age := by
  simp [mkPatient, recNum, recFind]

theorem recNum_mkPatient_npreg (age npreg : ℚ) (bmi ogtt sys dia fh pcos : Option ℚ) :
    recNum (mkPatient age npreg bmi ogtt sys dia fh pcos) "No of Pregnancy" = some npreg := by
  simp [mkPatient, recNum, recFind]

theorem recNum_mkPatient_bmi (age npreg : ℚ) (bmi ogtt sys dia fh pcos : Option ℚ) :
    recNum (mkPatient age npreg bmi ogtt sys dia fh pcos) "BMI" = bmi := by
  cases bmi <;>
    simp [mkPatient, recNum, recFind, recFind_append, recFind_optCol_ne,
      recFind_optCol_self]

theorem recNum_mkPatient_ogtt (age npreg : ℚ) (bmi ogtt sys dia fh pcos : Option ℚ) :
    recNum (mkPatient age npreg bmi ogtt sys dia fh pcos) "OGTT" = ogtt := by
  cases ogtt <;>
    simp [mkPatient, recNum, recFind, recFind_append, recFind_optCol_ne,
      recFind_optCol_self]

theorem recNum_mkPatient_sys (age npreg : ℚ) (bmi ogtt sys dia fh pcos : Option ℚ) :
    recNum (mkPatient age npreg bmi ogtt sys dia fh pcos) "Sys BP" = sys := by
  cases sys <;>
    simp [mkPatient, recNum, recFind, recFind_append, recFind_optCol_ne,
      recFind_optCol_self]

theorem recNum_mkPatient_dia (age npreg : ℚ) (bmi ogtt sys dia fh pcos : Option ℚ) :
    recNum (mkPatient age npreg bmi ogtt sys dia fh pcos) "Dia BP" = dia := by
  cases dia <;>
    simp [mkPatient, recNum, recFind, recFind_append, recFind_optCol_ne,
      recFind_optCol_self]

theorem recNum_mkPatient_fh (age npreg : ℚ) (bmi ogtt sys dia fh pcos : Option ℚ) :
    recNum (mkPatient age npreg bmi ogtt sys dia fh pcos) "Family History" = fh := by
  cases fh <;>
    simp [mkPatient, recNum, recFind, recFind_append, recFind_optCol_ne,
      recFind_optCol_self]

theorem recNum_mkPatient_pcos (age npreg : ℚ) (bmi ogtt sys dia fh pcos : Option ℚ) :
    recNum (mkPatient age npreg bmi ogtt sys dia fh pcos) "PCOS" = pcos := by
  cases pcos <;>
    simp [mkPatient, recNum, recFind, recFind_append, recFind_optCol_ne,
      recFind_optCol_self]

theorem recHas_mkPatient_false (age npreg : ℚ) (bmi ogtt sys dia fh pcos : Option ℚ)
    (k : String) (h1 : ¬ "Age" = k) (h2 : ¬ "No of Pregnancy" = k) (h3 : ¬ "BMI" = k)
    (h4 : ¬ "OGTT" = k) (h5 : ¬ "Sys BP" = k) (h6 : ¬ "Dia BP" = k)
    (h7 : ¬ "Family History" = k) (h8 : ¬ "PCOS" = k) :
    recHas (mkPatient age npreg bmi ogtt sys dia fh pcos) k = false := by
  simp [mkPatient, recHas, recFind, recFind_append, recFind_optCol_ne _ _ _ h3,
    recFind_optCol_ne _ _ _ h4, recFind_optCol_ne _ _ _ h5, recFind_optCol_ne _ _ _ h6,
    recFind_optCol_ne _ _ _ h7, recFind_optCol_ne _ _ _ h8, h1, h2]

/-- C2 (amended): for records that do contain Age and No of Pregnancy,
the feature-engineering stage never raises, each guarded derivation
(BMI, OGTT, combined, interaction, blood pressure, high-risk indicators)
is produced exactly when its source columns are present, and absent
Family History and PCOS contribute 0 to the Comprehensive_Risk_Score
(their `.get` defaults); but Age and No of Pregnancy are read without a
presence guard, so a record missing either raises a KeyError and the
caller falls back to the unenhanced record, dropping every derived
column. -/
theorem feature_engineering_presence_conditional (age npreg : ℚ)
    (bmi ogtt sys dia fh pcos : Option ℚ) :
    ∃ d : Rec,
      advanced_feature_engineering (mkPatient age npreg bmi ogtt sys dia fh pcos) =
        Except.ok d ∧
      recHas d "BMI_Category" = bmi.isSome ∧
      recHas d "BMI_Risk_Score" = bmi.isSome ∧
      recHas d "OGTT_Category" = ogtt.isSome ∧
      recHas d "OGTT_Risk_Score" = ogtt.isSome ∧
      recHas d "BMI_OGTT_Risk" = (bmi.isSome && ogtt.isSome) ∧
      recHas d "Age_BMI_Interaction" = bmi.isSome ∧
      recHas d "BP_Ratio" = (sys.isSome && dia.isSome) ∧
      recHas d "Hypertensive" = (sys.isSome && dia.isSome) ∧
      recHas d "High_Risk_BMI" = bmi.isSome ∧
      recHas d "High_Risk_OGTT" = ogtt.isSome ∧
      recHas d "Advanced_Age" = true ∧
      recNum d "Comprehensive_Risk_Score" = some (
        (match ogtt with | some g => ogttRiskScore g * 2 | none => 0) +
        (match bmi with | some b => bmiRiskScore b * 1.5 | none => 0) +
        (if 35 < age then 1 else 0) * 2 +
        fh.getD 0 * 2 +
        pcos.getD 0 * 2.5 +
        (if 2 < npreg then 1 else 0) * 1 +
        (match sys, dia with
         | some s, some dd => (if 140 ≤ s ∨ 90 ≤ dd then (1 : ℚ) else 0) * 1.5
         | _, _ => 0)) := by
  simp only [advanced_feature_engineering]
  rw [recNum_bpBlock_ne _ "Age" (by decide) (by decide) (by decide) (by decide),
    recNum_interactionBlock_ne _ "Age" (by decide),
    recNum_combinedBlock_ne _ "Age" (by decide),
    recNum_ogttBlock_ne _ "Age" (by decide) (by decide),
    recNum_bmiBlock_ne _ "Age" (by decide) (by decide),
    recNum_mkPatient_age,
    recNum_bpBlock_ne _ "No of Pregnancy" (by decide) (by decide) (by decide) (by decide),
    recNum_interactionBlock_ne _ "No of Pregnancy" (by decide),
    recNum_combinedBlock_ne _ "No of Pregnancy" (by decide),
    recNum_ogttBlock_ne _ "No of Pregnancy" (by decide) (by decide),
    recNum_bmiBlock_ne _ "No of Pregnancy" (by decide) (by decide),
    recNum_mkPatient_npreg]
  refine ⟨_, rfl, ?_, ?_, ?_, ?_, ?_, ?_, ?_, ?_, ?_, ?_, ?_, ?_⟩ <;>
    [skip; skip; skip; skip; skip; skip; skip; skip; skip; skip; skip;
      (rcases ogtt with _ | g <;> rcases bmi with _ | b <;> rcases sys with _ | s <;>
        rcases dia with _ | dd)] <;>
    simp [recHas_logBlock_ne, recNum_logBlock_ne, recHas_set_ne, recHas_set_self,
      recNum_set_ne, recNum_set_num,
      recHas_highRiskOgttBlock_ne, recHas_highRiskBmiBlock_ne, recHas_highRiskOgttBlock,
      recHas_highRiskBmiBlock, recNum_highRiskOgttBlock_ne, recNum_highRiskBmiBlock_ne,
      recHas_bpBlock_ne, recHas_bpBlock_ratio, recHas_bpBlock_hyper, recNum_bpBlock_ne,
      recNum_bpBlock_hyper,
      recHas_interactionBlock_ne, recHas_interactionBlock, recNum_interactionBlock_ne,
      recHas_combinedBlock_ne, recHas_combinedBlock, recNum_combinedBlock_ne,
      recHas_ogttBlock_ne, recHas_ogttBlock_cat, recHas_ogttBlock_score,
      recNum_ogttBlock_ne, recNum_ogttBlock_score_map,
      recHas_bmiBlock_ne, recHas_bmiBlock_cat, recHas_bmiBlock_score,
      recNum_bmiBlock_ne, recNum_bmiBlock_score_map,
      recNum_mkPatient_age, recNum_mkPatient_npreg, recNum_mkPatient_bmi,
      recNum_mkPatient_ogtt, recNum_mkPatient_sys, recNum_mkPatient_dia,
      recNum_mkPatient_fh, recNum_mkPatient_pcos, recHas_mkPatient_false,
      riskTerms, recGetD]

/-! ### Extended-interpreter helpers -/

theorem predict_gdm_extended_ok (st : PreprocessingState) (patient : Rec)
    (preds : List ℚ) (probs : List (List ℚ)) (o : OutcomeExt)
    (h : predict_gdm_extended st patient preds probs = Except.ok o) :
    ∃ nonG g, probPair (preds.headD 0) (probs.headD [1, 0]) = Except.ok (nonG, g) ∧
      o = { prediction := if (st.optimal_threshold).getD 0.5 ≤ g then "GDM" else "Non GDM"
            gdm_probability := g
            non_gdm_probability := nonG
            risk_category := riskCategoryExt g patient
            confidence := max g nonG
            risk_factors := extRiskFactors patient } := by
  simp only [predict_gdm_extended] at h
  cases hc : classesIdx (pyInt (preds.headD 0)) with
  | error e => rw [hc] at h; exact absurd h (by simp)
  | ok lbl =>
    rw [hc] at h
    cases hp : probPair (preds.headD 0) (probs.headD [1, 0]) with
    | error e => rw [hp] at h; exact absurd h (by simp)
    | ok pr =>
      rw [hp] at h
      obtain ⟨nonG, g⟩ := pr
      simp only [Except.ok.injEq] at h
      exact ⟨nonG, g, rfl, h.symm⟩

theorem eval_highrisk_outcome :
    predict_gdm_extended stNone recHighRisk [1] [[0, 1]] = Except.ok oC5 := by
  simp [predict_gdm_extended, stNone, recHighRisk, oC5, rfHigh, classesIdx, pyInt,
    probPair, riskCategoryExt, highRiskCount, extRiskFactors, recGetD, recNum, recFind]
  norm_num

/-! ### C3 -/

/-- C3: for every outcome of the extended variant, the final label comes
from comparing gdm_probability to the stored optimal threshold (default
0.5) with `≥`: the label is GDM exactly when the probability reaches the
threshold (so equality classifies as GDM) and Non GDM exactly when it is
below, for any class the ensemble itself predicted. -/
theorem threshold_label_ge (st : PreprocessingState) (patient : Rec)
    (preds : List ℚ) (probs : List (List ℚ)) (o : OutcomeExt)
    (h : predict_gdm_extended st patient preds probs = Except.ok o) :
    (o.prediction = "GDM" ↔ (st.optimal_threshold).getD 0.5 ≤ o.gdm_probability) ∧
    (o.prediction = "Non GDM" ↔ o.gdm_probability < (st.optimal_threshold).getD 0.5) := by
  obtain ⟨nonG, g, hpp, ho⟩ := predict_gdm_extended_ok st patient preds probs o h
  subst ho
  by_cases ht : (st.optimal_threshold).getD 0.5 ≤ g
  · simp [ht, not_lt.mpr ht]
  · simp [ht, not_le.mp ht]

/-- C3 witness: with optimal_threshold 0.75 and probability exactly
0.75, the label is GDM. -/
theorem threshold_label_ge_witness :
    predict_gdm_extended stA recHighRisk [0] [[1/4, 3/4]] = Except.ok oThr ∧
    (oThr.prediction = "GDM" ↔ (stA.optimal_threshold).getD 0.5 ≤ oThr.gdm_probability) ∧
    (oThr.prediction = "Non GDM" ↔ oThr.gdm_probability < (stA.optimal_threshold).getD 0.5) := by
  have he : predict_gdm_extended stA recHighRisk [0] [[1/4, 3/4]] = Except.ok oThr := by
    simp [predict_gdm_extended, stA, recHighRisk, oThr, rfHigh, classesIdx, pyInt,
      probPair, riskCategoryExt, highRiskCount, extRiskFactors, recGetD, recNum, recFind]
    norm_num
  exact ⟨he, threshold_label_ge stA recHighRisk [0] [[1/4, 3/4]] oThr he⟩

/-! ### C4 -/

/-- C4: the extended variant's risk category is High Risk iff the
probability reaches 0.7 or at least 3 of the five high-risk markers
(BMI ≥ 30, OGTT ≥ 140, Age ≥ 35, Family History = 1, PCOS = 1, read
from the raw record) hold, Moderate Risk iff not High and the
probability reaches 0.4 or at least 2 markers hold, and Low Risk
otherwise. -/
theorem risk_category_policy (st : PreprocessingState) (r : Rec)
    (preds : List ℚ) (probs : List (List ℚ)) (o : OutcomeExt)
    (bmi ogtt age fh pcos : ℚ)
    (hb : recNum r "BMI" = some bmi) (hg : recNum r "OGTT" = some ogtt)
    (ha : recNum r "Age" = some age) (hf : recNum r "Family History" = some fh)
    (hp : recNum r "PCOS" = some pcos)
    (h : predict_gdm_extended st r preds probs = Except.ok o) :
    highRiskCount r =
      ((if 30 ≤ bmi then 1 else 0) + (if 140 ≤ ogtt then 1 else 0) +
       (if 35 ≤ age then 1 else 0) + (if fh = 1 then 1 else 0) +
       (if pcos = 1 then 1 else 0)) ∧
    (o.risk_category = "High Risk" ↔
      (0.7 : ℚ) ≤ o.gdm_probability ∨ 3 ≤ highRiskCount r) ∧
    (o.risk_category = "Moderate Risk" ↔
      ¬((0.7 : ℚ) ≤ o.gdm_probability ∨ 3 ≤ highRiskCount r) ∧
      ((0.4 : ℚ) ≤ o.gdm_probability ∨ 2 ≤ highRiskCount r)) ∧
    (o.risk_category = "Low Risk" ↔
      ¬((0.7 : ℚ) ≤ o.gdm_probability ∨ 3 ≤ highRiskCount r) ∧
      ¬((0.4 : ℚ) ≤ o.gdm_probability ∨ 2 ≤ highRiskCount r)) := by
  obtain ⟨nonG, g, hpp, ho⟩ := predict_gdm_extended_ok st r preds probs o h
  subst ho
  refine ⟨by simp [highRiskCount, recGetD, hb, hg, ha, hf, hp], ?_, ?_, ?_⟩ <;>
    · by_cases h1 : (0.7 : ℚ) ≤ g ∨ 3 ≤ highRiskCount r
      · simp [riskCategoryExt, h1]
      · by_cases h2 : (0.4 : ℚ) ≤ g ∨ 2 ≤ highRiskCount r
        · simp [riskCategoryExt, h1, h2]
        · simp [riskCategoryExt, h1, h2]

/-- C4 witness: the high-risk profile satisfies all five markers, and
its outcome is High Risk. -/
theorem risk_category_policy_witness :
    recNum recHighRisk "BMI" = some 32.5 ∧
    predict_gdm_extended stNone recHighRisk [1] [[0, 1]] = Except.ok oC5 ∧
    (oC5.risk_category = "High Risk" ↔
      (0.7 : ℚ) ≤ oC5.gdm_probability ∨ 3 ≤ highRiskCount recHighRisk) := by
  refine ⟨rfl, eval_highrisk_outcome, ?_⟩
  exact (risk_category_policy stNone recHighRisk [1] [[0, 1]] oC5 32.5 180 38 1 1
    rfl rfl rfl rfl rfl eval_highrisk_outcome).2.1

/-! ### C6 -/

/-- C6: on the extended-variant high-risk test profile (Age 38, 3
pregnancies, BMI 32.5, OGTT 180, HDL 35, all history flags set,
BP 145/95, Hemoglobin 10.5), every outcome has risk_category High Risk
and the obesity and high_glucose risk factors set, whatever the model's
probability output and threshold were. -/
theorem scenario_A_high_risk (st : PreprocessingState) (preds : List ℚ)
    (probs : List (List ℚ)) (o : OutcomeExt)
    (h : predict_gdm_extended st recHighRisk preds probs = Except.ok o) :
    o.risk_category = "High Risk" ∧ o.risk_factors.obesity = true ∧
    o.risk_factors.high_glucose = true := by
  obtain ⟨nonG, g, hpp, ho⟩ := predict_gdm_extended_ok st recHighRisk preds probs o h
  subst ho
  have hcount : highRiskCount recHighRisk = 5 := by
    simp [highRiskCount, recGetD, recNum, recFind, recHighRisk]
    norm_num
  refine ⟨by simp [riskCategoryExt, hcount], ?_, ?_⟩ <;>
    · simp [extRiskFactors, recGetD, recNum, recFind, recHighRisk]
      norm_num

/-- C6 witness: the high-risk profile evaluated at probability row
[0, 1] under the default threshold. -/
theorem scenario_A_high_risk_witness :
    predict_gdm_extended stNone recHighRisk [1] [[0, 1]] = Except.ok oC5 ∧
    (oC5.risk_category = "High Risk" ∧ oC5.risk_factors.obesity = true ∧
      oC5.risk_factors.high_glucose = true) :=
  ⟨eval_highrisk_outcome,
   scenario_A_high_risk stNone [1] [[0, 1]] oC5 eval_highrisk_outcome⟩

/-! ### C9 -/

/-- C9: the legacy variant's high_bp flag uses strict comparisons
(Sys BP > 140 or Dia BP > 90), so the exact-threshold record 140/90 gets
high_bp = false there, while the extended variant's high_bp flag and the
Hypertensive feature use `≥` at the same thresholds and fire on it. -/
theorem legacy_high_bp_strict (r : Rec) (s dd : ℚ)
    (hs : recNum r "Sys BP" = some s) (hd : recNum r "Dia BP" = some dd) :
    ((simpleRiskFactors r).high_bp = true ↔ (140 < s ∨ 90 < dd)) ∧
    ((extRiskFactors r).high_bp = true ↔ (140 ≤ s ∨ 90 ≤ dd)) ∧
    (simpleRiskFactors recBP14090).high_bp = false ∧
    (extRiskFactors recBP14090).high_bp = true ∧
    afeColumn recBP14090 "Hypertensive" = some (Val.num 1) := by
  refine ⟨?_, ?_, ?_, ?_, ?_⟩
  · simp [simpleRiskFactors, recGetD, hs, hd]
  · simp [extRiskFactors, recGetD, hs, hd]
  · simp [simpleRiskFactors, recGetD, recNum, recFind, recBP14090]
  · simp [extRiskFactors, recGetD, recNum, recFind, recBP14090]
  · simp [afeColumn, advanced_feature_engineering, bmiBlock, ogttBlock, combinedBlock,
      interactionBlock, bpBlock, riskTerms, highRiskBmiBlock, highRiskOgttBlock, logBlock,
      recBP14090, recNum, recFind, recSet, recGetD, Except.toOption]

/-- C9 witness: the strict and non-strict characterisations applied to
the exact-threshold record 140/90. -/
theorem legacy_high_bp_strict_witness :
    recNum recBP14090 "Sys BP" = some 140 ∧
    ((simpleRiskFactors recBP14090).high_bp = true ↔ ((140 : ℚ) < 140 ∨ (90 : ℚ) < 90)) ∧
    ((extRiskFactors recBP14090).high_bp = true ↔ ((140 : ℚ) ≤ 140 ∨ (90 : ℚ) ≤ 90)) :=
  ⟨rfl, (legacy_high_bp_strict recBP14090 140 90 rfl rfl).1,
   (legacy_high_bp_strict recBP14090 140 90 rfl rfl).2.1⟩

/-! ### C7 -/

theorem fillMissing_find (cols : List String) (r : Rec) (k : String) :
    recFind (fillMissing cols r) k =
      match recFind r k with
      | some v => some v
      | none => if k ∈ cols then some (Val.num (defaultFill k)) else none := by
  induction cols generalizing r with
  | nil =>
    simp only [fillMissing, List.foldl_nil]
    cases recFind r k <;> simp
  | cons c cs ih =>
    simp only [fillMissing, List.foldl_cons] at ih ⊢
    by_cases hc : recHas r c
    · rw [if_pos hc, ih]
      by_cases hkc : k = c
      · subst hkc
        simp only [recHas, Option.isSome_iff_exists] at hc
        obtain ⟨v, hv⟩ := hc
        simp [hv]
      · simp [hkc]
    · rw [if_neg hc, ih]
      by_cases hkc : k = c
      · subst hkc
        have hnone : recFind r k = none := by
          cases hf : recFind r k with
          | none => rfl
          | some v => rw [recHas, hf] at hc; simp at hc
        simp [recFind_set_self, hnone]
      · rw [recFind_set_ne _ _ _ _ (fun he => hkc he.symm)]
        cases recFind r k <;> simp [hkc]

theorem selectColumns_keys (cols : List String) (r : Rec) :
    (selectColumns cols r).map Prod.fst = cols := by
  induction cols with
  | nil => rfl
  | cons c cs ih => simpa [selectColumns] using ih

theorem selectColumns_lookup (cols : List String) (r : Rec) (k : String) (hk : k ∈ cols) :
    recFind (selectColumns cols r) k = some ((recFind r k).getD Val.nan) := by
  induction cols with
  | nil => cases hk
  | cons c cs ih =>
    simp only [selectColumns, List.map_cons, recFind]
    by_cases hck : c = k
    · subst hck; simp
    · rw [if_neg hck]
      have : k ∈ cs := by
        cases hk with
        | head => exact absurd rfl hck
        | tail _ h => exact h
      exact ih this

/-- C7: the extended preprocessor fills every training feature column
absent from the record with its policy default — 0 when the column name
contains "Risk" or "Score", else 28 for Age, 23 for BMI, 120 for OGTT,
12 for Hemoglobin, 50 for HDL, and 0 for anything else — and the
aligned result carries exactly the feature columns in their declared
order, with present columns keeping their original value. -/
theorem preprocessor_fill_and_align (cols : List String) (r : Rec) :
    (selectColumns cols (fillMissing cols r)).map Prod.fst = cols ∧
    ∀ k, k ∈ cols →
      recFind (selectColumns cols (fillMissing cols r)) k =
        some (match recFind r k with
          | some v => v
          | none => Val.num (
              if strContains k "Risk" || strContains k "Score" then 0
              else if k = "Age" then 28
              else if k = "BMI" then 23
              else if k = "OGTT" then 120
              else if k = "Hemoglobin" then 12
              else if k = "HDL" then 50
              else 0)) := by
  refine ⟨selectColumns_keys cols (fillMissing cols r), fun k hk => ?_⟩
  rw [selectColumns_lookup _ _ _ hk, fillMissing_find]
  cases recFind r k with
  | some v => simp
  | none => simp [hk, defaultFill]

/-- C7 witness: on a schema with a Risk column, a clinical default and a
plain column, an Age-only record is filled with 0, 12 and 0 and aligned
in schema order. -/
theorem preprocessor_fill_and_align_witness :
    (selectColumns cols0 (fillMissing cols0 r0)).map Prod.fst = cols0 ∧
    recFind (selectColumns cols0 (fillMissing cols0 r0)) "Age" = some (Val.num 41) ∧
    recFind (selectColumns cols0 (fillMissing cols0 r0)) "BMI_Risk_Score" =
      some (Val.num 0) ∧
    recFind (selectColumns cols0 (fillMissing cols0 r0)) "Hemoglobin" =
      some (Val.num 12) ∧
    recFind (selectColumns cols0 (fillMissing cols0 r0)) "Sedentary Lifestyle" =
      some (Val.num 0) := by
  refine ⟨(preprocessor_fill_and_align cols0 r0).1, ?_, ?_, ?_, ?_⟩ <;>
    · rw [(preprocessor_fill_and_align cols0 r0).2 _ (by decide)]
      simp [r0, recFind, strContains, containsList, isPrefixList]

/-! ### C5 -/

theorem probPair_sum (prediction : ℚ) (proba : List ℚ) (nonG g : ℚ)
    (hshape : proba = [] ∨ (∃ a, proba = [a]) ∨ ∃ a b, proba = [a, b] ∧ a + b = 1)
    (hp : probPair prediction proba = Except.ok (nonG, g)) :
    g + nonG = 1 := by
  rcases hshape with h0 | ⟨a, h1⟩ | ⟨a, b, h2, hsum⟩
  · subst h0; simp [probPair] at hp
  · subst h1
    simp only [probPair, List.length_singleton] at hp
    rw [if_neg (by norm_num)] at hp
    simp only [Except.ok.injEq, Prod.mk.injEq] at hp
    obtain ⟨hn, hg⟩ := hp
    subst hn; subst hg
    ring
  · subst h2
    simp only [probPair] at hp
    rw [if_pos (by simp)] at hp
    simp only [Except.ok.injEq, Prod.mk.injEq] at hp
    obtain ⟨hn, hg⟩ := hp
    subst hn; subst hg
    simp only [List.getD]
    simpa [add_comm] using hsum

/-- C5: whenever every probability row the meta-model can emit is a
binary row summing to 1 (the classifier contract), every outcome built
by either variant from an ensemble run — including runs where the
meta-model exposes no probability output and the `[1-pred, pred]`
fallback is used — satisfies gdm_probability + non_gdm_probability = 1
exactly (hence within any tolerance). -/
theorem probability_sum_one (models : ModelSet) (X : List (List ℚ))
    (hproba : ∀ em, lookupModel models "Ensemble" = some em →
      ∀ f, em.predictProba = some f → ∀ Y row, row ∈ f Y →
        row = [] ∨ (∃ a, row = [a]) ∨ ∃ a b, row = [a, b] ∧ a + b = 1)
    (preds : List ℚ) (probs : List (List ℚ))
    (hrun : runEnsemble models X = Except.ok (preds, probs)) :
    (∀ st patient o, predict_gdm_extended st patient preds probs = Except.ok o →
      o.gdm_probability + o.non_gdm_probability = 1) ∧
    (∀ pt patient o, predict_gdm_simple pt patient preds probs = Except.ok o →
      o.gdm_probability + o.non_gdm_probability = 1) := by
  have hshape : ∀ row ∈ probs,
      row = [] ∨ (∃ a, row = [a]) ∨ ∃ a b, row = [a, b] ∧ a + b = 1 := by
    simp only [runEnsemble] at hrun
    by_cases hip : basePredictions models X = []
    · rw [if_pos hip] at hrun; exact absurd hrun (by simp)
    · rw [if_neg hip] at hrun
      cases hem : lookupModel models "Ensemble" with
      | none => rw [hem] at hrun; exact absurd hrun (by simp)
      | some em =>
        simp only [hem] at hrun
        cases hpred : em.predict (transposeM (basePredictions models X)) with
        | none => simp only [hpred] at hrun; exact absurd hrun (by simp)
        | some finalPreds =>
          simp only [hpred] at hrun
          cases hpp : em.predictProba with
          | some f =>
            simp only [hpp] at hrun
            simp only [Except.ok.injEq, Prod.mk.injEq] at hrun
            obtain ⟨hpreds, hprobs⟩ := hrun
            intro row hr
            exact hproba em hem f hpp _ row (hprobs ▸ hr)
          | none =>
            simp only [hpp] at hrun
            simp only [Except.ok.injEq, Prod.mk.injEq] at hrun
            obtain ⟨hpreds, hprobs⟩ := hrun
            intro row hr
            rw [← hprobs] at hr
            simp only [List.mem_map] at hr
            obtain ⟨p, hp, hrow⟩ := hr
            exact Or.inr (Or.inr ⟨1 - p, p, hrow.symm, by ring⟩)
  have hhead : probs.headD [1, 0] = [] ∨ (∃ a, probs.headD [1, 0] = [a]) ∨
      ∃ a b, probs.headD [1, 0] = [a, b] ∧ a + b = 1 := by
    cases probs with
    | nil => exact Or.inr (Or.inr ⟨1, 0, rfl, by norm_num⟩)
    | cons row rest => exact hshape row (by simp)
  constructor
  · intro st patient o h
    obtain ⟨nonG, g, hpp2, ho⟩ := predict_gdm_extended_ok st patient preds probs o h
    subst ho
    simpa using probPair_sum _ _ _ _ hhead hpp2
  · intro pt patient o h
    simp only [predict_gdm_simple] at h
    by_cases hcl : pt = "classification"
    · rw [if_pos hcl] at h
      cases hc : classesIdx (pyInt (preds.headD 0)) with
      | error e => rw [hc] at h; exact absurd h (by simp)
      | ok lbl =>
        rw [hc] at h
        cases hp2 : probPair (preds.headD 0) (probs.headD [1, 0]) with
        | error e => rw [hp2] at h; exact absurd h (by simp)
        | ok pr =>
          rw [hp2] at h
          obtain ⟨nonG, g⟩ := pr
          simp only [Except.ok.injEq] at h
          rw [← h]
          simpa using probPair_sum _ _ _ _ hhead hp2
    · rw [if_neg hcl] at h
      simp only [Except.ok.injEq] at h
      rw [← h]
      simp

/-- C5 witness: a concrete ensemble whose meta-model has no probability
output; the fallback probabilities feed the extended interpreter and sum
to 1. -/
theorem probability_sum_one_witness :
    runEnsemble modelsA Xone = Except.ok ([1], [[0, 1]]) ∧
    predict_gdm_extended stNone recHighRisk [1] [[0, 1]] = Except.ok oC5 ∧
    oC5.gdm_probability + oC5.non_gdm_probability = 1 := by
  have hrun : runEnsemble modelsA Xone = Except.ok ([1], [[0, 1]]) := by
    simp [runEnsemble, basePredictions, modelsA, mOne, Xone, transposeM, zeros, lookupModel]
    try norm_num
  refine ⟨hrun, eval_highrisk_outcome, ?_⟩
  refine (probability_sum_one modelsA Xone ?_ [1] [[0, 1]] hrun).1
    stNone recHighRisk oC5 eval_highrisk_outcome
  intro em hem f hf Y row hr
  simp [lookupModel, modelsA] at hem
  subst hem
  simp [mOne] at hf

/-! ### C8 -/

/-- C8 counterexample: with an empty model set, 'Ensemble' is missing
from the models, yet the prediction fails with NoBaseModels, not
NoEnsembleModel — the empty-base check fires first, refuting the claim
that a missing 'Ensemble' always yields NoEnsembleModel. -/
theorem ensemble_empty_models_fails_no_base :
    lookupModel ([] : ModelSet) "Ensemble" = none ∧
    runEnsemble ([] : ModelSet) [[1]] = Except.error PredErr.NoBaseModels ∧
    Except.error PredErr.NoBaseModels ≠
      (Except.error PredErr.NoEnsembleModel : Except PredErr (List ℚ × List (List ℚ))) := by
  refine ⟨rfl, ?_, by simp⟩
  simp [runEnsemble, basePredictions]

theorem basePredictions_eq_nil_iff (models : ModelSet) (X : List (List ℚ)) :
    basePredictions models X = [] ↔
      models.filter (fun nm => nm.1 != "Ensemble") = [] := by
  simp [basePredictions]

/-- C8 (amended): each base model that fails contributes an all-zero
vector of the input's row count in its position and the ensemble
continues; the prediction fails with NoBaseModels exactly when the set
of models other than 'Ensemble' is empty; and it fails with
NoEnsembleModel when 'Ensemble' is missing provided at least one base
model exists (with no base models at all, NoBaseModels wins). -/
theorem ensemble_error_policy (models : ModelSet) (X : List (List ℚ)) :
    (runEnsemble models X = Except.error PredErr.NoBaseModels ↔
      models.filter (fun nm => nm.1 != "Ensemble") = []) ∧
    (models.filter (fun nm => nm.1 != "Ensemble") ≠ [] →
      lookupModel models "Ensemble" = none →
      runEnsemble models X = Except.error PredErr.NoEnsembleModel) ∧
    (∀ pre post (name : String) (m : MLModel), models = pre ++ (name, m) :: post →
      name ≠ "Ensemble" → m.predict X = none →
      basePredictions models X =
        basePredictions pre X ++ zeros X.length :: basePredictions post X) := by
  refine ⟨?_, ?_, ?_⟩
  · constructor
    · intro h
      by_contra hne
      have hip : ¬ basePredictions models X = [] :=
        fun hi => hne ((basePredictions_eq_nil_iff models X).mp hi)
      simp only [runEnsemble] at h
      rw [if_neg hip] at h
      cases hem : lookupModel models "Ensemble" with
      | none => simp only [hem] at h; exact absurd h (by simp)
      | some em =>
        simp only [hem] at h
        cases hpred : em.predict (transposeM (basePredictions models X)) with
        | none => simp only [hpred] at h; exact absurd h (by simp)
        | some finalPreds => simp only [hpred] at h; exact absurd h (by simp)
    · intro hf
      simp only [runEnsemble]
      rw [if_pos ((basePredictions_eq_nil_iff models X).mpr hf)]
  · intro hf hnone
    simp only [runEnsemble]
    rw [if_neg (fun hi => hf ((basePredictions_eq_nil_iff models X).mp hi))]
    simp [hnone]
  · intro pre post name m hm hname hpred
    subst hm
    simp [basePredictions, List.filter_append, List.filter_cons, hname, hpred]

/-- C8 witness: a three-model set whose middle base model always fails:
the failing model contributes a zero vector in place, and the
NoBaseModels characterisation holds; separately, a set with one base
model and no 'Ensemble' fails with NoEnsembleModel. -/
theorem ensemble_error_policy_witness :
    (runEnsemble modelsB Xone = Except.error PredErr.NoBaseModels ↔
      modelsB.filter (fun nm => nm.1 != "Ensemble") = []) ∧
    basePredictions modelsB Xone =
      basePredictions [("A", mOne)] Xone ++
        zeros Xone.length :: basePredictions [] Xone ∧
    runEnsemble [("A", mFail)] Xone = Except.error PredErr.NoEnsembleModel := by
  refine ⟨(ensemble_error_policy modelsB Xone).1, ?_, ?_⟩
  · exact (ensemble_error_policy modelsB Xone).2.2 [("A", mOne)] [("Ensemble", mOne)]
      "B" mFail rfl (by decide) rfl
  · exact (ensemble_error_policy [("A", mFail)] Xone).2.1 (by simp) rfl
